import Mathlib

/-!
Verification of the chat gating and AI-query aggregation pipeline of the
`chat_travel` repository.  The Python sources under `app/services/chat_service.py`,
`app/services/gemini_service.py` and `app/controllers/chat_controller.py` are
shallowly embedded as executable Lean functions; machine strings are modelled as
`String`, SQL rows as association lists, and the fallible external collaborators
(the relational store and the generative model) as explicit oracles.  All string
scanning restricts Python semantics to ASCII, which covers every keyword,
pattern and message the code manipulates.
-/

namespace ChatTravel

/-- `listStarts hay pre` is true when `hay` begins with `pre` (character-exact). -/
def listStarts : List Char → List Char → Bool
  | _, [] => true
  | [], _ :: _ => false
  | h :: hs, p :: ps => h == p && listStarts hs ps

/-- `listHas hay needle`: Python substring containment `needle in hay`. -/
def listHas (hay needle : List Char) : Bool :=
  match hay with
  | [] => needle.isEmpty
  | _ :: t => listStarts hay needle || listHas t needle

/-- Python `needle in hay` on strings. -/
def strContains (hay needle : String) : Bool := listHas hay.data needle.data

/-- Python `hay.startswith(pre)`. -/
def strStarts (hay pre : String) : Bool := listStarts hay.data pre.data

/-- Python `s.lower()` restricted to ASCII. -/
def lowerStr (s : String) : String := ⟨s.data.map Char.toLower⟩

/-- Python `s.upper()` restricted to ASCII. -/
def upperStr (s : String) : String := ⟨s.data.map Char.toUpper⟩

/-- The ASCII whitespace class of Python `\s` / `str.strip`. -/
def isSpaceChar (c : Char) : Bool :=
  c == ' ' || c == '\t' || c == '\n' || c == '\r' || c == '\x0b' || c == '\x0c'

/-- Word characters of Python `\w` (ASCII): letters, digits and underscore. -/
def isWordChar (c : Char) : Bool := c.isAlpha || c.isDigit || c == '_'

/-- Python `s.strip()` (ASCII whitespace). -/
def stripList (cs : List Char) : List Char :=
  ((cs.dropWhile isSpaceChar).reverse.dropWhile isSpaceChar).reverse

/-- Python `s.strip()` on strings. -/
def stripStr (s : String) : String := ⟨stripList s.data⟩

/-! ## Keyword lexicon (`chat_service.py`, lines 10-16) -/

/-- `ALLOWED_PUBLIC_TOPICS` from the source. -/
def ALLOWED_PUBLIC_TOPICS : List String :=
  ["trip", "trips", "jadwal", "schedule", "promo", "promosi", "diskon", "blog", "artikel"]

/-- `ALLOWED_PRIVATE_TOPICS` from the source. -/
def ALLOWED_PRIVATE_TOPICS : List String :=
  ["booking", "pesanan", "pesananku", "booking saya", "riwayat", "history"]

/-- `SENSITIVE_KEYWORDS` from the source. -/
def SENSITIVE_KEYWORDS : List String :=
  ["password", "kata sandi", "token", "apikey", "api key"]

/-- `ChatService.classify_intent`: case-insensitive substring tests, sensitive
first, then private, then public, else unknown. -/
def classify_intent (message : String) : String :=
  let msg := lowerStr message
  if SENSITIVE_KEYWORDS.any (fun k => strContains msg k) then "sensitive"
  else if ALLOWED_PRIVATE_TOPICS.any (fun k => strContains msg k) then "private"
  else if ALLOWED_PUBLIC_TOPICS.any (fun k => strContains msg k) then "public"
  else "unknown"

/-! ## Query validator (`chat_service.py`, lines 403-446) -/

/-- `ChatService.ALLOWED_AI_TABLES` from the source (a Python set; modelled as a
duplicate-free list, membership being the only consumed operation). -/
def ALLOWED_AI_TABLES : List String :=
  ["promos", "trips", "blogs", "trip_schedules", "trip_facilities", "trip_itineraries", "reviews"]

/-- The `blocked` list of `_is_select_only`, verbatim including trailing spaces. -/
def BLOCKED_KEYWORDS : List String :=
  ["update ", "insert ", "delete ", "drop ", "alter ", "truncate ", "create ", "grant ", "revoke "]

/-- `ChatService._is_select_only`: strip and lower-case, then reject on a `;`,
on any blocked-keyword substring, on comment markers, and finally require a
`select`/`with ` prefix. -/
def _is_select_only (sql : String) : Bool :=
  let lower := lowerStr (stripStr sql)
  if strContains lower ";" then false
  else if BLOCKED_KEYWORDS.any (fun b => strContains lower b) then false
  else if strContains lower "--" || strContains lower "/*" || strContains lower "*/" then false
  else strStarts lower "select" || strStarts lower "with "

/-- Try to match `kw` followed by one-or-more whitespace and an identifier
`[a-zA-Z_][a-zA-Z0-9_]*` at the head of `cs`; on success return the identifier
and the remainder after it.  This is the body of the regex
`\bfrom\s+([a-zA-Z_][a-zA-Z0-9_]*)` once the leading word boundary is handled
by the caller. -/
def dropExact : List Char → List Char → Option (List Char)
  | [], cs => some cs
  | _ :: _, [] => none
  | k :: ks, c :: cs => if c == k then dropExact ks cs else none

/-- Longest prefix of identifier-tail characters `[a-zA-Z0-9_]*`, with the rest. -/
def takeIdentTail : List Char → List Char × List Char
  | [] => ([], [])
  | c :: cs =>
    if isWordChar c then
      let p := takeIdentTail cs
      (c :: p.1, p.2)
    else ([], c :: cs)

/-- Match `kw` + `\s+` + identifier at the head of `cs` (see `dropExact`). -/
def matchKwIdent (kw : List Char) (cs : List Char) : Option (List Char × List Char) :=
  match dropExact kw cs with
  | none => none
  | some rest =>
    match rest with
    | [] => none
    | c :: cs2 =>
      if isSpaceChar c then
        match cs2.dropWhile isSpaceChar with
        | [] => none
        | d :: ds =>
          if d.isAlpha || d == '_' then
            let p := takeIdentTail ds
            some (d :: p.1, p.2)
          else none
      else none

/-- One `re.finditer` pass for the pattern `\bkw\s+([a-zA-Z_][a-zA-Z0-9_]*)`:
`prevW` tracks whether the previous character is a word character (for the
word boundary), and scanning resumes after each match (non-overlapping
semantics).  `fuel` bounds the recursion; each step advances at least one
character, so `fuel = cs.length` scans the whole input. -/
def scanKwAux (kw : List Char) : Nat → Bool → List Char → List (List Char)
  | 0, _, _ => []
  | _ + 1, _, [] => []
  | fuel + 1, prevW, c :: rest =>
    if prevW then scanKwAux kw fuel (isWordChar c) rest
    else
      match matchKwIdent kw (c :: rest) with
      | some (id, rest3) => id :: scanKwAux kw fuel true rest3
      | none => scanKwAux kw fuel (isWordChar c) rest

/-- All captures of `\bkw\s+([a-zA-Z_][a-zA-Z0-9_]*)` over `cs`, leftmost first. -/
def scanKw (kw : List Char) (cs : List Char) : List (List Char) :=
  scanKwAux kw cs.length false cs

/-- Insert into a Python-set model, keeping first occurrences and no duplicates. -/
def setInsert (xs : List String) (x : String) : List String :=
  if xs.contains x then xs else xs ++ [x]

/-- `ChatService._extract_tables_in_sql`: union of the captures of the two
patterns `\bfrom\s+(ident)` and `\bjoin\s+(ident)` over the lower-cased SQL.
The source accumulates into a `set`; only emptiness and subset tests consume
the result, so a duplicate-free list is a faithful model. -/
def _extract_tables_in_sql (sql : String) : List String :=
  let lower := (lowerStr sql).data
  ((scanKw "from".data lower ++ scanKw "join".data lower).map
      (fun cs => String.mk cs)).foldl setInsert []

/-- `ChatService._is_whitelisted_tables`: extracted table set non-empty and a
subset of the whitelist. -/
def _is_whitelisted_tables (sql : String) (allowed : List String) : Bool :=
  let tables := _extract_tables_in_sql sql
  !tables.isEmpty && tables.all (fun t => allowed.contains t)

/-- `ChatService._guess_main_table`: capture of the first `\bfrom\s+(ident)`
match (`re.search`), if any. -/
def _guess_main_table (sql : String) : Option String :=
  match scanKw "from".data (lowerStr sql).data with
  | [] => none
  | t :: _ => some (String.mk t)

/-! ## Rows and typed schemas (`schemas.py`) -/

/-- A SQL scalar as it reaches the Python layer: a string, an integer (also
standing for the `Decimal`/`datetime` scalars the chat paths only ever pass
through or print), or `NULL`/`None`. -/
inductive Val where
  | vstr : String → Val
  | vint : Int → Val
  | vnull : Val
deriving DecidableEq, Repr

/-- A result row: `dict(r)` of a SQLAlchemy row mapping, an insertion-ordered
association list. -/
def Row := List (String × Val)
deriving DecidableEq, Repr

/-- Python `r.get(k)`: first binding of `k`, `None` when absent. -/
def rowGet (r : Row) (k : String) : Option Val :=
  (List.find? (fun p => p.1 == k) r).map (fun p => p.2)

/-- Rendering of a value inside a Python f-string (`str(None) = "None"`). -/
def showVal : Val → String
  | .vstr s => s
  | .vint n => toString n
  | .vnull => "None"

/-- Rendering of `r.get(k)` inside an f-string (a missing key prints `None`). -/
def showValOpt : Option Val → String
  | none => "None"
  | some v => showVal v

/-- Python truthiness of `r.get(k)` (`None`, `""` and `0` are falsy). -/
def valTruthy : Option Val → Bool
  | none => false
  | some .vnull => false
  | some (.vstr s) => !s.isEmpty
  | some (.vint n) => n != 0

/-- `schemas.PromoSummary`: `name`, `start_date`, `end_date`, `is_active`
required; `promo_code`, `discount_type`, `discount_value` optional. -/
structure PromoSummary where
  name : String
  promo_code : Option String
  discount_type : Option String
  discount_value : Option Int
  start_date : Val
  end_date : Val
  is_active : Int
deriving DecidableEq, Repr

/-- `schemas.TripResponse`: all fields required. -/
structure TripResponse where
  id : Int
  name : String
  slug : String
  location : String
  duration : String
  price : Int
  status : String
  is_active : Int
deriving DecidableEq, Repr

/-- Pydantic validation of an optional string field: absent or `NULL` gives
`None`; a string is taken as-is; any other type fails. -/
def parseStrOpt : Option Val → Option (Option String)
  | none => some none
  | some .vnull => some none
  | some (.vstr s) => some (some s)
  | some (.vint _) => none

/-- Pydantic validation of an optional numeric field. -/
def parseNumOpt : Option Val → Option (Option Int)
  | none => some none
  | some .vnull => some none
  | some (.vint n) => some (some n)
  | some (.vstr _) => none

/-- `PromoSummary(**dict(r))`: succeeds iff the required fields are present with
admissible values; the surrounding `try`/`except` maps failure to `none`. -/
def parsePromo (r : Row) : Option PromoSummary :=
  match rowGet r "name", parseStrOpt (rowGet r "promo_code"),
      parseStrOpt (rowGet r "discount_type"), parseNumOpt (rowGet r "discount_value"),
      rowGet r "start_date", rowGet r "end_date", rowGet r "is_active" with
  | some (.vstr name), some pc, some dt, some dv, some sd, some ed, some (.vint act) =>
    if sd == Val.vnull || ed == Val.vnull then none
    else some ⟨name, pc, dt, dv, sd, ed, act⟩
  | _, _, _, _, _, _, _ => none

/-- `TripResponse(**dict(r))` under the row `try`/`except`. -/
def parseTrip (r : Row) : Option TripResponse :=
  match rowGet r "id", rowGet r "name", rowGet r "slug", rowGet r "location",
      rowGet r "duration", rowGet r "price", rowGet r "status", rowGet r "is_active" with
  | some (.vint id), some (.vstr name), some (.vstr slug), some (.vstr loc),
      some (.vstr dur), some (.vint price), some (.vstr status), some (.vint act) =>
    some ⟨id, name, slug, loc, dur, price, status, act⟩
  | _, _, _, _, _, _, _, _ => none

/-- The promo narrative line of `build_ai_aggregate`
(`f"Promo: {name}"` plus `f" (kode {code})"` when the code is truthy). -/
def promoChunk (r : Row) : String :=
  let base := "Promo: " ++ showValOpt (rowGet r "name")
  if valTruthy (rowGet r "promo_code") then
    base ++ " (kode " ++ showValOpt (rowGet r "promo_code") ++ ")"
  else base

/-- The trip narrative line of `build_ai_aggregate`. -/
def tripChunk (r : Row) : String :=
  "Trip: " ++ showValOpt (rowGet r "name") ++ " (" ++ showValOpt (rowGet r "location") ++
    "), harga " ++ showValOpt (rowGet r "price")

/-- The generic narrative line: `" | ".join(f"{k}:{v}" for k, v in dict(r).items())`. -/
def rowChunk (r : Row) : String :=
  String.intercalate " | " (r.map (fun p => p.1 ++ ":" ++ showVal p.2))

/-! ## The AI-query validation and execution loop
(`build_ai_aggregate`, step 2, `chat_service.py` lines 472-526) -/

/-- Mutable accumulators of `build_ai_aggregate`'s loop.  `related_collections`
models the insertion-ordered Python dict `{table: rows}`. -/
structure AggState where
  chunks : List String := []
  used_keys : List String := []
  generated_queries : List String := []
  related_promos : List PromoSummary := []
  related_trips : List TripResponse := []
  related_collections : List (String × List Row) := []
deriving DecidableEq, Repr

/-- `related_collections.setdefault(table, []).extend(rows_dicts)` on the
insertion-ordered dict model. -/
def rcAdd (rc : List (String × List Row)) (k : String) (rows : List Row) :
    List (String × List Row) :=
  if rc.any (fun p => p.1 == k) then
    rc.map (fun p => if p.1 == k then (p.1, p.2 ++ rows) else p)
  else rc ++ [(k, rows)]

/-- One iteration of the `for q in ai_queries` loop of `build_ai_aggregate`:
strip, validate (`_is_select_only`, `_is_whitelisted_tables`), execute via the
store oracle `exec` (`try`: an execution error skips the query), then record
the query, classify rows by `_guess_main_table` and accumulate typed rows,
narrative chunks and audit keys exactly as the source does. -/
def aggStep (exec : String → Except Unit (List Row)) (st : AggState) (q : String) :
    AggState :=
  let q_str := stripStr q
  if q_str.isEmpty then st
  else if !_is_select_only q_str then st
  else if !_is_whitelisted_tables q_str ALLOWED_AI_TABLES then st
  else
    let main_table := _guess_main_table q_str
    match exec q_str with
    | .error _ => st
    | .ok rows =>
      let st := { st with generated_queries := st.generated_queries ++ [q_str] }
      if rows.isEmpty then st
      else
        let st :=
          match main_table with
          | some t => { st with related_collections := rcAdd st.related_collections t rows }
          | none => st
        if main_table == some "promos" then
          { st with
            related_promos := st.related_promos ++ rows.filterMap parsePromo,
            chunks := st.chunks ++ rows.map promoChunk,
            used_keys := st.used_keys ++ ["promos.ai"] }
        else if main_table == some "trips" then
          { st with
            related_trips := st.related_trips ++ rows.filterMap parseTrip,
            chunks := st.chunks ++ rows.map tripChunk,
            used_keys := st.used_keys ++ ["trips.ai"] }
        else
          { st with
            chunks := st.chunks ++ rows.map rowChunk,
            used_keys := st.used_keys ++
              (match main_table with
               | some t => [t ++ ".ai"]
               | none => []) }

/-- The whole validation-and-execution loop over an ordered list of candidate
queries, from the empty accumulator state. -/
def runAiQueries (exec : String → Except Unit (List Row)) (qs : List String) : AggState :=
  qs.foldl (aggStep exec) {}

/-! ## Store model and booking lookup helpers
(`db/models.py`, `chat_service.py` lines 90-109 and 326-345) -/

/-- The authenticated user (`models.User`): the fields the chat paths read. -/
structure UserM where
  name : String
  email : String
deriving DecidableEq, Repr

/-- `models.Booking`: the fields the chat paths read.  `created_at` is an
integer timestamp (only its ordering is consumed); `trip_name` models the
`b.trip.name if b.trip else "-"` access. -/
structure Booking where
  booking_code : String
  customer_email : String
  created_at : Int
  trip_name : Option String
  departure_date : String
  participants : Int
  total_amount : Int
  status : String
  payment_status : String
deriving DecidableEq, Repr

/-- The relational store: the booking table, the identifier-existence probes the
controller issues (`SELECT 1 FROM <table> WHERE <key> = :v LIMIT 1`), and the
raw-SQL execution oracle used by the AI-query loop. -/
structure Db where
  bookings : List Booking
  promoCodes : List String
  tripSlugs : List String
  tripIds : List Int
  blogSlugs : List String
  categorySlugs : List String
  tagSlugs : List String
  reviewIds : List Int
  exec : String → Except Unit (List Row)

/-- `ORDER BY created_at DESC`: later timestamps first. -/
def bookingDesc (a b : Booking) : Prop := b.created_at ≤ a.created_at

instance : DecidableRel bookingDesc := fun a b => inferInstanceAs (Decidable (b.created_at ≤ a.created_at))

instance : IsTotal Booking bookingDesc := ⟨fun a b => le_total b.created_at a.created_at⟩

instance : IsTrans Booking bookingDesc := ⟨fun _ _ _ h1 h2 => le_trans h2 h1⟩

/-- `ChatService.get_user_recent_bookings`: filter on `customer_email`,
order by `created_at` descending, take `limit`. -/
def get_user_recent_bookings (db : Db) (user : UserM) (limit : Nat) : List Booking :=
  (((db.bookings.filter (fun b => b.customer_email == user.email)).insertionSort
      bookingDesc).take limit)

/-- Does the scan position sit at a trailing word boundary (`\b`)? -/
def atBoundary : List Char → Bool
  | [] => true
  | c :: _ => !isWordChar c

/-- Longest prefix satisfying `p`, with the remainder. -/
def spanP (p : Char → Bool) : List Char → List Char × List Char
  | [] => ([], [])
  | c :: cs =>
    if p c then
      let r := spanP p cs
      (c :: r.1, r.2)
    else ([], c :: cs)

/-- `[A-Z0-9]` after `message.upper()`. -/
def isUpperAlnum (c : Char) : Bool := c.isUpper || c.isDigit

/-- The alternative `[A-Z]{2}-?[A-Z0-9]{3,}` followed by `\b`.  The character
classes are matched as maximal runs with an explicit boundary check, which
coincides with the backtracking regex: shrinking a maximal `[A-Z0-9]` run (or
dropping the `-`) always leaves a word character at the boundary. -/
def matchCodeAlt1 : List Char → Option (List Char)
  | c1 :: c2 :: rest =>
    if c1.isUpper && c2.isUpper then
      let dashed :=
        match rest with
        | '-' :: r => (['-'], r)
        | _ => (([] : List Char), rest)
      let run := spanP isUpperAlnum dashed.2
      if run.1.length ≥ 3 && atBoundary run.2 then
        some (c1 :: c2 :: (dashed.1 ++ run.1))
      else none
    else none
  | _ => none

/-- The alternative `TG-[A-Z0-9]{6,}` followed by `\b`. -/
def matchCodeAlt2 : List Char → Option (List Char)
  | 'T' :: 'G' :: '-' :: rest =>
    let run := spanP isUpperAlnum rest
    if run.1.length ≥ 6 && atBoundary run.2 then some ('T' :: 'G' :: '-' :: run.1)
    else none
  | _ => none

/-- The alternation of the booking-code regex of `detect_booking_by_code`:
`[A-Z]{2}-?[A-Z0-9]{3,}|TG-[A-Z0-9]{6,}`, left alternative first. -/
def matchBookingCode (cs : List Char) : Option (List Char) :=
  match matchCodeAlt1 cs with
  | some r => some r
  | none => matchCodeAlt2 cs

/-- The pattern `[A-Z]{2}\d{3,}` followed by `\b`
(`build_booking_by_code_context`). -/
def matchCodeDigits : List Char → Option (List Char)
  | c1 :: c2 :: rest =>
    if c1.isUpper && c2.isUpper then
      let run := spanP Char.isDigit rest
      if run.1.length ≥ 3 && atBoundary run.2 then some (c1 :: c2 :: run.1)
      else none
    else none
  | _ => none

/-- `re.search` with a leading `\b`: first (leftmost) match of `m`, tracking
whether the previous character is a word character.  `fuel = cs.length`
suffices since every step advances one character. -/
def searchFirstAux (m : List Char → Option (List Char)) :
    Nat → Bool → List Char → Option (List Char)
  | 0, _, _ => none
  | _ + 1, _, [] => none
  | fuel + 1, prevW, c :: rest =>
    if prevW then searchFirstAux m fuel (isWordChar c) rest
    else
      match m (c :: rest) with
      | some code => some code
      | none => searchFirstAux m fuel (isWordChar c) rest

/-- First match of `m` in `s` (with leading word boundary), as a string. -/
def searchFirst (m : List Char → Option (List Char)) (s : String) : Option String :=
  (searchFirstAux m s.data.length false s.data).map (fun cs => String.mk cs)

/-- `ChatService.detect_booking_by_code`: regex search on the upper-cased
message, then `Booking` lookup by code, additionally filtered to the user's
`customer_email` when a user is supplied; `q.first()` is `head?`. -/
def detect_booking_by_code (db : Db) (user : Option UserM) (message : String) :
    Option Booking :=
  match searchFirst matchBookingCode (upperStr message) with
  | none => none
  | some code =>
    let q := db.bookings.filter (fun b => b.booking_code == code)
    let q :=
      match user with
      | some u => q.filter (fun (b : Booking) => b.customer_email == u.email)
      | none => q
    q.head?

/-- The detail line of `build_booking_by_code_context`. -/
def bookingDetailLine (b : Booking) : String :=
  "Detail Booking " ++ b.booking_code ++ ": trip " ++ b.trip_name.getD "-" ++
    ", keberangkatan " ++ b.departure_date ++ ", peserta " ++ toString b.participants ++
    ", total " ++ toString b.total_amount ++ ", status " ++ b.status ++
    ", pembayaran " ++ b.payment_status

/-- `ChatService.build_booking_by_code_context`: searches `\b([A-Z]{2}\d{3,})\b`
in the upper-cased message, looks the booking up scoped to the user when one is
supplied, and emits one detail chunk with audit key `bookings.by_code`. -/
def build_booking_by_code_context (db : Db) (user : Option UserM) (message : String) :
    List String × List String :=
  match searchFirst matchCodeDigits (upperStr message) with
  | none => ([], [])
  | some code =>
    let q := db.bookings.filter (fun b => b.booking_code == code)
    let q :=
      match user with
      | some u => q.filter (fun (b : Booking) => b.customer_email == u.email)
      | none => q
    match q.head? with
    | some b => ([bookingDetailLine b], ["bookings.by_code"])
    | none => ([], [])

/-! ## Generator collaborator (`gemini_service.py`) -/

/-- A propagated Python exception: `err` stands for a runtime failure raised
by a collaborator (`RuntimeError`, SDK failure, ...), `typeError` for a
`TypeError` raised by the interpreter at a call whose arguments do not match
the callee's signature. -/
inductive PyErr where
  | err
  | typeError
deriving DecidableEq, Repr

/-- Oracle for one request's interaction with the external generator:
`apiKeyPresent` is the truthiness of `settings.google_api_key` consumed by
`_ensure_init`; `proposed` is `some qs` when the guarded generate-and-parse
block of `generate_sql_queries` succeeds with the raw `str(item["sql"])`
values, `none` when it raises; `answerRaises`/`answerText` (resp.
`thematicRaises`/`thematicText`) describe the `generate_content` call of the
answer (resp. thematic) operation and the `resp.text` attribute it returns. -/
structure GenEnv where
  apiKeyPresent : Bool
  proposed : Option (List String)
  answerRaises : Bool
  answerText : Option String
  thematicRaises : Bool
  thematicText : Option String
deriving DecidableEq, Repr

/-- `GeminiService._ensure_init`: raises `RuntimeError` when no API key is set
(the `_initialized` flag only caches a previous success). -/
def _ensure_init (env : GenEnv) : Except PyErr Unit :=
  if env.apiKeyPresent then .ok () else .error .err

/-- The fixed out-of-context string of `answer_with_context`. -/
def OUT_OF_CONTEXT_REPLY : String := "Maaf, pertanyaan di luar konteks database ini."

/-- `GeminiService.answer_with_context`: initialization and the model call are
unguarded (failures propagate); when the call returns, a truthy `resp.text` is
stripped and returned, otherwise the fixed out-of-context string. -/
def answer_with_context (env : GenEnv) (user_message : String)
    (context_chunks : List String) : Except PyErr String :=
  match _ensure_init env with
  | .error e => .error e
  | .ok _ =>
    if env.answerRaises then .error .err
    else
      match env.answerText with
      | some t => if t.isEmpty then .ok OUT_OF_CONTEXT_REPLY else .ok (stripStr t)
      | none => .ok OUT_OF_CONTEXT_REPLY

/-- The promo fallback SQL of `generate_sql_queries`, including the
message-dependent date filter. -/
def promoFallbackSql (msg : String) : String :=
  let base := "SELECT name, promo_code, discount_type, discount_value, start_date, end_date, is_active FROM promos WHERE is_active = 1"
  let base :=
    if strContains msg "hari ini" then base ++ " AND start_date <= NOW() AND end_date >= NOW()"
    else if strContains msg "bulan ini" then base ++ " AND ((MONTH(start_date)=MONTH(CURDATE()) AND YEAR(start_date)=YEAR(CURDATE())) OR (MONTH(end_date)=MONTH(CURDATE()) AND YEAR(end_date)=YEAR(CURDATE())))"
    else if strContains msg "tahun ini" then base ++ " AND (YEAR(start_date)=YEAR(CURDATE()) OR YEAR(end_date)=YEAR(CURDATE()))"
    else base
  base ++ " ORDER BY (discount_value IS NULL) ASC, discount_value DESC LIMIT 10"

/-- The trips fallback SQL of `generate_sql_queries`. -/
def tripsFallbackSql : String :=
  "SELECT id, name, slug, location, duration, price, status, is_active FROM trips WHERE is_active = 1 AND status = 'published' ORDER BY id DESC LIMIT 10"

/-- The trigger keywords of the trips fallback. -/
def TRIP_FALLBACK_KEYWORDS : List String :=
  ["trip", "trips", "jadwal", "schedule", "bali", "labuan", "raja amp"]

/-- The keyword-driven fallback of `generate_sql_queries` (`msg` already
lower-cased by the caller, as in the source). -/
def fallback_queries (msg : String) : List String :=
  (if strContains msg "promo" then [promoFallbackSql msg] else []) ++
    (if TRIP_FALLBACK_KEYWORDS.any (fun k => strContains msg k) then [tripsFallbackSql] else [])

/-- `GeminiService.generate_sql_queries`: initialization is unguarded; the
generate-and-parse block is guarded, returning the stripped non-empty proposed
statements on success and the keyword fallback on any exception. -/
def generate_sql_queries (env : GenEnv) (user_message : String)
    (allowed_tables : List String) : Except PyErr (List String) :=
  match _ensure_init env with
  | .error e => .error e
  | .ok _ =>
    match env.proposed with
    | some qs => .ok ((qs.map stripStr).filter (fun q => !q.isEmpty))
    | none => .ok (fallback_queries (lowerStr user_message))

/-- Modelled from the spec: `GeminiService.answer_thematic`, the context-free
thematic answer operation the controller calls (§4.5); it is absent from the
service source provided.  Modelled with the same shape as the other answer
operation: unguarded initialization and model call, degrading to the fixed
out-of-context string only when the call succeeds without text. -/
def answer_thematic (env : GenEnv) (user_message : String) : Except PyErr String :=
  match _ensure_init env with
  | .error e => .error e
  | .ok _ =>
    if env.thematicRaises then .error .err
    else
      match env.thematicText with
      | some t => if t.isEmpty then .ok OUT_OF_CONTEXT_REPLY else .ok (stripStr t)
      | none => .ok OUT_OF_CONTEXT_REPLY

/-! ## Gating helpers

The controller `chat_controller.chat` calls a family of `ChatService` gating
predicates and identifier extractors that are referenced but not present in the
service source provided; they are modelled here from the spec (§4.2), each with
a `Modelled from the spec:` comment. -/

/-- Maximal runs of characters satisfying `p` (a tokenizer); `fuel = cs.length`
scans the whole input. -/
def tokensByAux (p : Char → Bool) : Nat → List Char → List (List Char)
  | 0, _ => []
  | _ + 1, [] => []
  | fuel + 1, c :: rest =>
    if p c then
      let r := spanP p rest
      (c :: r.1) :: tokensByAux p fuel r.2
    else tokensByAux p fuel rest

/-- Maximal runs of characters satisfying `p` in `s`. -/
def tokensBy (p : Char → Bool) (s : String) : List (List Char) :=
  tokensByAux p s.data.length s.data

/-- Numeric value of a digit run. -/
def digitsToNat (cs : List Char) : Nat :=
  cs.foldl (fun n c => n * 10 + (c.toNat - 48)) 0

/-- Modelled from the spec: internal/system-data request detection (stage 2 of
§4.2), a case-insensitive keyword test. -/
def INTERNAL_DATA_KEYWORDS : List String :=
  ["data internal", "internal sistem", "tabel sistem", "skema database", "konfigurasi sistem"]

/-- Modelled from the spec: `ChatService.is_internal_data_request` (absent from
the service source; its caller is `chat_controller.py` line 102). -/
def is_internal_data_request (message : String) : Bool :=
  INTERNAL_DATA_KEYWORDS.any (fun k => strContains (lowerStr message) k)

/-- Modelled from the spec: the greetings recognized by the pure-greeting stage
(stage 3 of §4.2; scenario `"halo"`). -/
def GREETING_WORDS : List String :=
  ["halo", "hai", "hello", "hi", "selamat pagi", "selamat siang", "selamat malam"]

/-- Modelled from the spec: `ChatService.is_pure_greeting` — the message is
*only* a greeting. -/
def is_pure_greeting (message : String) : Bool :=
  GREETING_WORDS.contains (lowerStr (stripStr message))

/-- Modelled from the spec: `ChatService.build_greeting_reply`, the canned
greeting. -/
def build_greeting_reply : String :=
  "Halo! Ada yang bisa saya bantu seputar trip, promo, atau booking Anda?"

/-- Modelled from the spec: PII-lookup detection (stage 4 of §4.2 — lookup by
name/email/phone). -/
def PII_KEYWORDS : List String := ["nama", "email", "telepon", "phone", "no hp"]

/-- Modelled from the spec: `ChatService.is_pii_lookup`. -/
def is_pii_lookup (message : String) : Bool :=
  PII_KEYWORDS.any (fun k => strContains (lowerStr message) k)

/-- Modelled from the spec: `ChatService._extract_booking_code(message, hint)`
— the syntactic phase of the two-phase booking-code extractor (§4.2 stage 6),
preferring a truthy caller-supplied hint and otherwise scanning the upper-cased
message for the booking-code shape `TG-[A-Z0-9]{6,}` of the spec's examples. -/
def _extract_booking_code (message : String) (hint : Option String) : Option String :=
  match hint with
  | some h => if h.isEmpty then searchFirst matchCodeAlt2 (upperStr message) else some h
  | none => searchFirst matchCodeAlt2 (upperStr message)

/-- Modelled from the spec: `ChatService.needs_promo_identifier` — the user
asks for the status/validity/detail of a specific promo (controller comment at
line 122). -/
def needs_promo_identifier (message : String) : Bool :=
  let msg := lowerStr message
  strContains msg "promo" &&
    (strContains msg "status" || strContains msg "cek" || strContains msg "valid" ||
      strContains msg "detail")

/-- Modelled from the spec: `ChatService._extract_promo_code` — the syntactic
phase only (the controller performs its own existence probe): the first
upper-case alphanumeric token of length ≥ 5 containing both a letter and a
digit (shape of the spec's example `WELCOME200`).  The store argument is
accepted for signature fidelity. -/
def _extract_promo_code (db : Db) (message : String) : Option String :=
  ((tokensBy isUpperAlnum message).filter
      (fun t => t.length ≥ 5 && t.any Char.isUpper && t.any Char.isDigit)).head?.map
    (fun cs => String.mk cs)

/-- A slug-shaped token: lower-case letters, digits and dashes, containing a
dash, length ≥ 3. -/
def slugToken (message : String) : Option String :=
  ((tokensBy (fun c => c.isLower || c.isDigit || c == '-') (lowerStr message)).filter
      (fun t => t.length ≥ 3 && t.contains '-')).head?.map (fun cs => String.mk cs)

/-- A `#<digits>` reference in the message. -/
def hashNumber (message : String) : Option Nat :=
  match searchFirst
      (fun cs =>
        match cs with
        | '#' :: rest =>
          let run := spanP Char.isDigit rest
          if run.1.isEmpty then none else some run.1
        | _ => none)
      message with
  | some ds => some (digitsToNat ds.data)
  | none => none

/-- Modelled from the spec: `ChatService.needs_trip_identifier`. -/
def needs_trip_identifier (message : String) : Bool :=
  let msg := lowerStr message
  strContains msg "trip" &&
    (strContains msg "status" || strContains msg "cek" || strContains msg "detail")

/-- Modelled from the spec: `ChatService._extract_trip_slug_or_id` — syntactic
slug extraction plus a `#id` reference validated against the store (the
controller comment at line 156 records that the id is validated in the
extractor). -/
def _extract_trip_slug_or_id (db : Db) (message : String) : Option String × Option Int :=
  let slug := slugToken message
  let tid :=
    match hashNumber message with
    | some n => if db.tripIds.contains (Int.ofNat n) then some (Int.ofNat n) else none
    | none => none
  (slug, tid)

/-- Modelled from the spec: `ChatService.needs_blog_identifier`. -/
def needs_blog_identifier (message : String) : Bool :=
  let msg := lowerStr message
  (strContains msg "blog" || strContains msg "artikel") &&
    (strContains msg "status" || strContains msg "cek" || strContains msg "detail")

/-- Modelled from the spec: `ChatService._extract_blog_slug` (syntactic phase
only; the controller probes existence itself). -/
def _extract_blog_slug (db : Db) (message : String) : Option String := slugToken message

/-- Modelled from the spec: `ChatService.needs_category_identifier`. -/
def needs_category_identifier (message : String) : Bool :=
  let msg := lowerStr message
  (strContains msg "kategori" || strContains msg "category") &&
    (strContains msg "status" || strContains msg "cek" || strContains msg "detail")

/-- Modelled from the spec: `ChatService._extract_category_slug`. -/
def _extract_category_slug (db : Db) (message : String) : Option String := slugToken message

/-- Modelled from the spec: `ChatService.needs_tag_identifier`. -/
def needs_tag_identifier (message : String) : Bool :=
  let msg := lowerStr message
  strContains msg "tag" &&
    (strContains msg "status" || strContains msg "cek" || strContains msg "detail")

/-- Modelled from the spec: `ChatService._extract_tag_slug`. -/
def _extract_tag_slug (db : Db) (message : String) : Option String := slugToken message

/-- Modelled from the spec: `ChatService.needs_schedule_identifier`. -/
def needs_schedule_identifier (message : String) : Bool :=
  let msg := lowerStr message
  (strContains msg "jadwal" || strContains msg "schedule") &&
    (strContains msg "status" || strContains msg "cek" || strContains msg "detail")

/-- Modelled from the spec: `ChatService.needs_review_identifier`. -/
def needs_review_identifier (message : String) : Bool :=
  let msg := lowerStr message
  strContains msg "review" &&
    (strContains msg "status" || strContains msg "cek" || strContains msg "detail")

/-- Modelled from the spec: `ChatService._extract_review_id` — a leading
`#<digits>` reference (§4.2, pattern `review #5`; the controller probes
existence itself). -/
def _extract_review_id (db : Db) (message : String) : Option Int :=
  (hashNumber message).map Int.ofNat

/-- Modelled from the spec: `ChatService.is_private_topic` — the message
matches the private-topic keyword set of the lexicon. -/
def is_private_topic (message : String) : Bool :=
  ALLOWED_PRIVATE_TOPICS.any (fun k => strContains (lowerStr message) k)

/-- Modelled from the spec: `ChatService.detect_private_subintent` —
payment-status vs booking-detail vs generic (§4.2 stage 6; the controller
compares against `"payment_status"` and `"booking_detail"`). -/
def detect_private_subintent (message : String) : String :=
  let msg := lowerStr message
  if strContains msg "bayar" || strContains msg "pembayaran" || strContains msg "payment" then
    "payment_status"
  else if strContains msg "detail" then "booking_detail"
  else "generic"

/-- Modelled from the spec: the travel-domain keyword whitelist of the global
thematic gate (§4.2 stage 8). -/
def THEME_KEYWORDS : List String :=
  ["trip", "travel", "promo", "booking", "pesanan", "jadwal", "schedule", "itinerary",
   "wisata", "liburan", "tour", "hotel", "diskon", "blog", "artikel", "riwayat", "review"]

/-- Modelled from the spec: `ChatService.is_on_theme`. -/
def is_on_theme (message : String) : Bool :=
  THEME_KEYWORDS.any (fun k => strContains (lowerStr message) k)

/-- Modelled from the spec: `ChatService.is_thematic_allowed` — the explicit
thematic allowance (travel tips/safety) consulted on the empty-context path. -/
def is_thematic_allowed (message : String) : Bool :=
  let msg := lowerStr message
  strContains msg "tips" || strContains msg "aman" || strContains msg "keamanan" ||
    strContains msg "packing" || strContains msg "persiapan"

/-! ## Aggregator entry point (`build_ai_aggregate`, `chat_service.py` 449-550) -/

/-- The booking narrative line of `build_ai_aggregate` step 3. -/
def bookingChunk (b : Booking) : String :=
  "Booking " ++ b.booking_code ++ ": trip " ++ b.trip_name.getD "-" ++ ", tgl " ++
    b.departure_date ++ ", peserta " ++ toString b.participants ++ ", total " ++
    toString b.total_amount ++ ", status " ++ b.status ++ "/" ++ b.payment_status

/-- The `payload` dict returned by `build_ai_aggregate`. -/
structure AggPayload where
  related_trips : List TripResponse
  related_promos : List PromoSummary
  user_bookings : List Booking
  generated_queries : List String
  related_collections : List (String × List Row)
deriving DecidableEq, Repr

/-- `ChatService.build_ai_aggregate` (`chat_service.py` line 449): its
parameters are exactly `(db, message, user)` — plus the generator oracle of
this embedding.  Ask the generator for candidate queries (an initialization
failure there propagates), run the validation-and-execution loop, then — when
the intent is private and a user is supplied — append the user's recent
bookings and their audit key.  Note the signature accepts no booking-code
hint; the controller nevertheless calls it with a `booking_code` keyword
argument, which is modelled at the call site in `chat`. -/
def build_ai_aggregate (db : Db) (env : GenEnv) (message : String) (user : Option UserM) :
    Except PyErr (List String × List String × AggPayload) :=
  match generate_sql_queries env message ALLOWED_AI_TABLES with
  | .error e => .error e
  | .ok ai_queries =>
    let st := ai_queries.foldl (aggStep db.exec) {}
    match user with
    | some u =>
      if classify_intent message == "private" then
        let bs := get_user_recent_bookings db u 10
        .ok (st.chunks ++ bs.map bookingChunk, st.used_keys ++ ["bookings.mine.latest10"],
          ⟨st.related_trips, st.related_promos, bs, st.generated_queries, st.related_collections⟩)
      else
        .ok (st.chunks, st.used_keys,
          ⟨st.related_trips, st.related_promos, [], st.generated_queries, st.related_collections⟩)
    | none =>
      .ok (st.chunks, st.used_keys,
        ⟨st.related_trips, st.related_promos, [], st.generated_queries, st.related_collections⟩)

/-! ## Controller (`chat_controller.py`, `chat` endpoint, lines 94-340) -/

/-- `schemas.ChatRequest`: `message` plus an optional `user_id`; the model has
no `booking_code` field. -/
structure ChatRequest where
  message : String
  user_id : Option Int := none
deriving DecidableEq, Repr

/-- `getattr(payload, "booking_code", None)`: `ChatRequest` declares no
`booking_code` field, so the controller's hint is always `None`. -/
def requestBookingCodeHint (payload : ChatRequest) : Option String := none

/-- `schemas.ChatResponse` with its field defaults. -/
structure ChatResponse where
  reply : String
  used_context_keys : List String := []
  suggested_actions : List String := []
  related_trips : List TripResponse := []
  user_bookings : List Booking := []
  related_promos : List PromoSummary := []
  generated_queries : List String := []
  summary : Option String := none
  related_collections : List (String × List Row) := []
deriving DecidableEq, Repr

/-- The generator operations the handler may invoke, for auditing which
external AI calls a path performs. -/
inductive GenCall where
  | propose
  | answer
  | thematic
deriving DecidableEq, Repr

/-- Fixed refusal/redirect texts of the controller. -/
def SENSITIVE_DENIAL : String :=
  "Akses ditolak. Jangan meminta data sensitif seperti password atau token."

/-- Internal-data refusal text. -/
def INTERNAL_DENIAL : String := "Data internal sistem tidak dapat diakses."

/-- PII-without-code refusal text. -/
def PII_REFUSAL : String :=
  "Demi privasi, pencarian berdasarkan nama/email/telepon tidak diizinkan. Untuk pemeriksaan, gunakan KODE BOOKING (mis. TG-ABC123)."

/-- Ask-for-promo-code text. -/
def PROMO_ASK : String := "Untuk memeriksa promo spesifik, sebutkan KODE PROMO (mis. WELCOME200)."

/-- Ask-for-trip-identifier text. -/
def TRIP_ASK : String :=
  "Untuk melihat status/detail trip, sebutkan ID atau SLUG trip (mis. 'raja-ampat-diving-paradise')."

/-- Ask-for-blog-slug text. -/
def BLOG_ASK : String :=
  "Untuk melihat detail artikel, sebutkan SLUG artikel (mis. '10-tips-budget-travel-untuk-backpacker-pemula')."

/-- Ask-for-category-slug text. -/
def CATEGORY_ASK : String := "Untuk melihat detail kategori, sebutkan SLUG kategori (mis. 'tips-travel')."

/-- Ask-for-tag-slug text. -/
def TAG_ASK : String := "Untuk melihat detail tag, sebutkan SLUG tag (mis. 'budgettravel')."

/-- Ask-for-schedule-identifier text. -/
def SCHEDULE_ASK : String :=
  "Untuk melihat jadwal trip, sebutkan ID atau SLUG trip (mis. 'raja-ampat-diving-paradise')."

/-- Ask-for-review-id text. -/
def REVIEW_ASK : String := "Untuk memeriksa detail review, sebutkan ID review (mis. 'review #5')."

/-- Off-theme redirect text. -/
def THEME_REDIRECT : String :=
  "Maaf, topik di luar tema travel. Ajukan pertanyaan seputar promo, trip, itinerary, keamanan perjalanan, dsb."

/-- Generic booking-code prompt. -/
def PRIVATE_PROMPT_GENERIC : String :=
  "Untuk memeriksa status booking, sebutkan KODE BOOKING Anda (mis. TG-ABC123)."

/-- Payment-status booking-code prompt. -/
def PRIVATE_PROMPT_PAYMENT : String :=
  "Untuk memeriksa status pembayaran, sebutkan KODE BOOKING Anda (mis. TG-ABC123)."

/-- Booking-detail booking-code prompt. -/
def PRIVATE_PROMPT_DETAIL : String :=
  "Untuk melihat detail booking, sebutkan KODE BOOKING Anda (mis. TG-ABC123)."

/-- The sub-intent-phrased booking-code prompt chosen at controller lines
236-240. -/
def private_prompt (message : String) : String :=
  if detect_private_subintent message == "payment_status" then PRIVATE_PROMPT_PAYMENT
  else if detect_private_subintent message == "booking_detail" then PRIVATE_PROMPT_DETAIL
  else PRIVATE_PROMPT_GENERIC

/-- Booking-code not-found reply (controller line 249). -/
def bookingNotFoundReply (code : String) : String :=
  "Kode booking " ++ code ++ " tidak ditemukan. Periksa ejaan atau gunakan kode lain."

/-- Promo-code not-found reply. -/
def promoNotFoundReply (code : String) : String :=
  "Kode promo " ++ code ++ " tidak ditemukan. Periksa ejaan atau gunakan kode lain."

/-- The ordered gating chain of the controller (lines 97-257), stage by stage;
`some resp` is a terminal early return, `none` falls through.  The order is the
source's: sensitive, internal-data, greeting, PII-without-code, promo, trip,
blog, category, tag, schedule, review, private-topic, theme. -/
def gateOutcome (db : Db) (payload : ChatRequest) : Option ChatResponse :=
  let m := payload.message
  if classify_intent m == "sensitive" then
    some { reply := SENSITIVE_DENIAL, used_context_keys := [] }
  else if is_internal_data_request m then
    some { reply := INTERNAL_DENIAL, used_context_keys := [] }
  else if is_pure_greeting m then
    some { reply := build_greeting_reply, used_context_keys := ["greeting"] }
  else if is_pii_lookup m && (_extract_booking_code m (requestBookingCodeHint payload)).isNone then
    some { reply := PII_REFUSAL, used_context_keys := [] }
  else if needs_promo_identifier m &&
      (match _extract_promo_code db m with
       | none => true
       | some c => !db.promoCodes.contains c) then
    some (match _extract_promo_code db m with
      | none => { reply := PROMO_ASK, used_context_keys := [] }
      | some c => { reply := promoNotFoundReply c, used_context_keys := ["promos.by_code"] })
  else if needs_trip_identifier m &&
      (match _extract_trip_slug_or_id db m with
       | (none, none) => true
       | (some s, _) => !db.tripSlugs.contains s
       | (none, some _) => false) then
    some (match (_extract_trip_slug_or_id db m).1 with
      | none => { reply := TRIP_ASK, used_context_keys := [] }
      | some s =>
        { reply := "Trip '" ++ s ++ "' tidak ditemukan.", used_context_keys := ["trips.by_slug"] })
  else if needs_blog_identifier m &&
      (match _extract_blog_slug db m with
       | none => true
       | some s => !db.blogSlugs.contains s) then
    some (match _extract_blog_slug db m with
      | none => { reply := BLOG_ASK, used_context_keys := [] }
      | some s =>
        { reply := "Artikel '" ++ s ++ "' tidak ditemukan.", used_context_keys := ["blogs.by_slug"] })
  else if needs_category_identifier m &&
      (match _extract_category_slug db m with
       | none => true
       | some s => !db.categorySlugs.contains s) then
    some (match _extract_category_slug db m with
      | none => { reply := CATEGORY_ASK, used_context_keys := [] }
      | some s =>
        { reply := "Kategori '" ++ s ++ "' tidak ditemukan.",
          used_context_keys := ["categories.by_slug"] })
  else if needs_tag_identifier m &&
      (match _extract_tag_slug db m with
       | none => true
       | some s => !db.tagSlugs.contains s) then
    some (match _extract_tag_slug db m with
      | none => { reply := TAG_ASK, used_context_keys := [] }
      | some s =>
        { reply := "Tag '" ++ s ++ "' tidak ditemukan.", used_context_keys := ["tags.by_slug"] })
  else if needs_schedule_identifier m &&
      (match _extract_trip_slug_or_id db m with
       | (none, none) => true
       | _ => false) then
    some { reply := SCHEDULE_ASK, used_context_keys := [] }
  else if needs_review_identifier m &&
      (match _extract_review_id db m with
       | none => true
       | some i => !db.reviewIds.contains i) then
    some (match _extract_review_id db m with
      | none => { reply := REVIEW_ASK, used_context_keys := [] }
      | some i =>
        { reply := "Review #" ++ toString i ++ " tidak ditemukan.",
          used_context_keys := ["reviews.by_id"] })
  else if (classify_intent m == "private" || is_private_topic m) &&
      (match _extract_booking_code m (requestBookingCodeHint payload) with
       | none => true
       | some code => !db.bookings.any (fun b => b.booking_code == code)) then
    some (match _extract_booking_code m (requestBookingCodeHint payload) with
      | none => { reply := private_prompt m, used_context_keys := [] }
      | some code =>
        { reply := bookingNotFoundReply code, used_context_keys := ["bookings.by_code"] })
  else if !is_on_theme m then
    some { reply := THEME_REDIRECT, used_context_keys := [] }
  else none

/-- The deterministic suggested actions of the controller (lines 268-275):
one action per promo with a truthy code, one if any trip matched, one if any
booking matched. -/
def buildSuggestedActions (promos : List PromoSummary) (trips : List TripResponse)
    (bookings : List Booking) : List String :=
  (promos.filterMap (fun p =>
    match p.promo_code with
    | some c => if c.isEmpty then none else some ("Gunakan kode " ++ c)
    | none => none)) ++
    (if trips.isEmpty then [] else ["Lihat detail trip yang direkomendasikan"]) ++
    (if bookings.isEmpty then [] else ["Lihat detail booking terakhir Anda"])

/-- `_build_general_summary`: fixed-template sentences conditioned on the
non-empty collections, joined by single spaces. -/
def _build_general_summary (message reply : String) (related_trips : List TripResponse)
    (related_promos : List PromoSummary) (user_bookings : List Booking) : String :=
  let msg := stripStr message
  let parts :=
    (if msg.isEmpty then [] else ["Permintaan: " ++ msg]) ++
      (if related_promos.isEmpty then []
       else ["Ditemukan " ++ toString related_promos.length ++ " promo aktif yang relevan."]) ++
      (if related_trips.isEmpty then []
       else ["Ada " ++ toString related_trips.length ++ " trip yang sesuai konteks."]) ++
      (if user_bookings.isEmpty then []
       else ["Kami juga menemukan " ++ toString user_bookings.length ++ " booking terkait akun Anda."]) ++
      (if reply.isEmpty then [] else ["Jawaban: " ++ reply])
  String.intercalate " " parts

/-- The response assembly of controller lines 290-340.  In the source provided
these lines are unreachable (see `chat`); the definition embeds them for
reference. -/
def composeResponse (m reply : String) (keys : List String) (agg : AggPayload) : ChatResponse :=
  { reply := reply,
    used_context_keys := keys,
    suggested_actions := buildSuggestedActions agg.related_promos agg.related_trips agg.user_bookings,
    related_trips := agg.related_trips,
    user_bookings := agg.user_bookings,
    related_promos := agg.related_promos,
    generated_queries := agg.generated_queries,
    summary := some (_build_general_summary m reply agg.related_trips agg.related_promos agg.user_bookings),
    related_collections := agg.related_collections }

/-- The `chat` endpoint (`chat_controller.py` lines 94-340): run the gating
chain; each firing gate returns its response with no generator call.  When no
gate fires, the controller at line 260 calls
`ChatService.build_ai_aggregate(db=db, message=..., user=None,
booking_code=getattr(payload, "booking_code", None))` — but the service
function's signature (`chat_service.py` line 449) is `(db, message, user)`
and accepts no `booking_code` keyword, so Python raises `TypeError` at the
call site, before the function body (and hence any generator interaction)
runs; the fault is caught nowhere in the controller and escapes.  Lines
261-340 of the controller are therefore unreachable in the source provided. -/
def chat (db : Db) (env : GenEnv) (payload : ChatRequest) :
    Except PyErr (ChatResponse × List GenCall) :=
  match gateOutcome db payload with
  | some resp => .ok (resp, [])
  | none => .error PyErr.typeError

/-! ## Theorems -/

/-- A passing whitelist check means: at least one table extracted, and every
extracted table is in the allowed set. -/
theorem whitelisted_tables_spec (s : String) (allowed : List String)
    (h : _is_whitelisted_tables s allowed = true) :
    _extract_tables_in_sql s ≠ [] ∧ ∀ t ∈ _extract_tables_in_sql s, t ∈ allowed := by
  unfold _is_whitelisted_tables at h
  rw [Bool.and_eq_true] at h
  refine ⟨?_, ?_⟩
  · have h1 := h.1
    simp only [Bool.not_eq_true'] at h1
    intro hnil
    rw [hnil] at h1
    simp at h1
  · intro t ht
    have h2 := h.2
    rw [List.all_eq_true] at h2
    simpa using h2 t ht

/-- Membership is preserved into the `setInsert` fold. -/
theorem mem_foldl_setInsert (l : List String) (init : List String) (x : String)
    (h : x ∈ init ∨ x ∈ l) : x ∈ l.foldl setInsert init := by
  induction l generalizing init with
  | nil => simpa using h.resolve_right (by simp)
  | cons a t ih =>
    refine ih (setInsert init a) ?_
    rcases h with h | h
    · left
      unfold setInsert
      split
      · exact h
      · exact List.mem_append_left _ h
    · rcases List.mem_cons.mp h with rfl | h
      · left
        unfold setInsert
        split
        · next hc => simpa using hc
        · exact List.mem_append_right _ (by simp)
      · exact Or.inr h

/-- The guessed main table is one of the extracted tables. -/
theorem guess_main_table_mem (s : String) (t : String)
    (h : _guess_main_table s = some t) : t ∈ _extract_tables_in_sql s := by
  unfold _guess_main_table at h
  unfold _extract_tables_in_sql
  apply mem_foldl_setInsert
  right
  rcases hs : scanKw "from".data (lowerStr s).data with _ | ⟨c, cs⟩
  · rw [hs] at h; exact absurd h (by simp)
  · rw [hs] at h
    simp only [Option.some.injEq] at h
    simp [hs, ← h]

/-- Every entry of `rcAdd rc k rows` has the key `k` or a key already in `rc`. -/
theorem rcAdd_keys (rc : List (String × List Row)) (k : String) (rows : List Row)
    (p : String × List Row) (hp : p ∈ rcAdd rc k rows) :
    p.1 = k ∨ ∃ q ∈ rc, p.1 = q.1 := by
  unfold rcAdd at hp
  split at hp
  · rcases List.mem_map.mp hp with ⟨q, hq, hqe⟩
    right
    refine ⟨q, hq, ?_⟩
    by_cases hk : (q.1 == k) = true
    · rw [if_pos hk] at hqe; rw [← hqe]
    · rw [if_neg hk] at hqe; rw [← hqe]
  · rcases List.mem_append.mp hp with h | h
    · exact Or.inr ⟨p, h, rfl⟩
    · left
      have : p = (k, rows) := by simpa using h
      rw [this]

/-- One loop iteration preserves the whitelist invariant on the recorded
queries and on the keys of `related_collections`. -/
theorem aggStep_preserves (exec : String → Except Unit (List Row)) (st : AggState) (q : String)
    (hg : ∀ r ∈ st.generated_queries,
      _extract_tables_in_sql r ≠ [] ∧ ∀ t ∈ _extract_tables_in_sql r, t ∈ ALLOWED_AI_TABLES)
    (hc : ∀ p ∈ st.related_collections, p.1 ∈ ALLOWED_AI_TABLES) :
    (∀ r ∈ (aggStep exec st q).generated_queries,
      _extract_tables_in_sql r ≠ [] ∧ ∀ t ∈ _extract_tables_in_sql r, t ∈ ALLOWED_AI_TABLES) ∧
    (∀ p ∈ (aggStep exec st q).related_collections, p.1 ∈ ALLOWED_AI_TABLES) := by
  have hgen : ∀ r ∈ st.generated_queries ++ [stripStr q],
      _is_whitelisted_tables (stripStr q) ALLOWED_AI_TABLES = true →
      _extract_tables_in_sql r ≠ [] ∧ ∀ t ∈ _extract_tables_in_sql r, t ∈ ALLOWED_AI_TABLES := by
    intro r hr hwl
    rcases List.mem_append.mp hr with hr | hr
    · exact hg r hr
    · have : r = stripStr q := by simpa using hr
      rw [this]
      exact whitelisted_tables_spec _ _ hwl
  by_cases h1 : (stripStr q).isEmpty = true
  · simp only [aggStep, h1, if_true]
    exact ⟨hg, hc⟩
  rw [Bool.not_eq_true] at h1
  by_cases h2 : _is_select_only (stripStr q) = true
  case neg =>
    rw [Bool.not_eq_true] at h2
    simp only [aggStep, h1, h2, Bool.not_false, Bool.false_eq_true, if_false, if_true]
    exact ⟨hg, hc⟩
  by_cases h3 : _is_whitelisted_tables (stripStr q) ALLOWED_AI_TABLES = true
  case neg =>
    rw [Bool.not_eq_true] at h3
    simp only [aggStep, h1, h2, h3, Bool.not_false, Bool.not_true, Bool.false_eq_true, if_false,
      if_true]
    exact ⟨hg, hc⟩
  have hmain : ∀ t, _guess_main_table (stripStr q) = some t → t ∈ ALLOWED_AI_TABLES := by
    intro t ht
    exact (whitelisted_tables_spec _ _ h3).2 t (guess_main_table_mem _ _ ht)
  rcases hexec : exec (stripStr q) with e | rows
  · simp only [aggStep, h1, h2, h3, hexec, Bool.not_true, Bool.false_eq_true, if_false]
    exact ⟨hg, hc⟩
  by_cases h4 : rows.isEmpty = true
  · simp only [aggStep, h1, h2, h3, hexec, h4, Bool.not_true, Bool.false_eq_true, if_false, if_true]
    exact ⟨fun r hr => hgen r hr h3, hc⟩
  rw [Bool.not_eq_true] at h4
  rcases hgm : _guess_main_table (stripStr q) with _ | t
  · simp only [aggStep, h1, h2, h3, hexec, h4, hgm, Bool.not_true, Bool.false_eq_true, if_false]
    simp only [show ((none : Option String) == some "promos") = false from rfl,
      show ((none : Option String) == some "trips") = false from rfl, Bool.false_eq_true, if_false]
    exact ⟨fun r hr => hgen r hr h3, hc⟩
  · have hcoll : ∀ p ∈ rcAdd st.related_collections t rows, p.1 ∈ ALLOWED_AI_TABLES := by
      intro p hp
      rcases rcAdd_keys _ _ _ _ hp with h | ⟨q2, hq2, hqe⟩
      · rw [h]; exact hmain t hgm
      · rw [hqe]; exact hc q2 hq2
    by_cases h5 : t = "promos"
    · subst h5
      simp only [aggStep, h1, h2, h3, hexec, h4, hgm, Bool.not_true, Bool.false_eq_true,
        if_false, beq_self_eq_true, if_true]
      exact ⟨fun r hr => hgen r hr h3, hcoll⟩
    by_cases h6 : t = "trips"
    · subst h6
      simp only [aggStep, h1, h2, h3, hexec, h4, hgm, Bool.not_true, Bool.false_eq_true,
        if_false, beq_self_eq_true, if_true, beq_iff_eq, Option.some.injEq]
      simp only [show (("trips" : String) = "promos") = False from by simp, if_false]
      exact ⟨fun r hr => hgen r hr h3, hcoll⟩
    · simp only [aggStep, h1, h2, h3, hexec, h4, hgm, Bool.not_true, Bool.false_eq_true, if_false,
        beq_iff_eq, Option.some.injEq, h5, h6, if_false]
      exact ⟨fun r hr => hgen r hr h3, hcoll⟩

/-- The whitelist invariant holds across the whole fold. -/
theorem foldl_aggStep_preserves (exec : String → Except Unit (List Row)) (qs : List String)
    (st : AggState)
    (hg : ∀ r ∈ st.generated_queries,
      _extract_tables_in_sql r ≠ [] ∧ ∀ t ∈ _extract_tables_in_sql r, t ∈ ALLOWED_AI_TABLES)
    (hc : ∀ p ∈ st.related_collections, p.1 ∈ ALLOWED_AI_TABLES) :
    (∀ r ∈ (qs.foldl (aggStep exec) st).generated_queries,
      _extract_tables_in_sql r ≠ [] ∧ ∀ t ∈ _extract_tables_in_sql r, t ∈ ALLOWED_AI_TABLES) ∧
    (∀ p ∈ (qs.foldl (aggStep exec) st).related_collections, p.1 ∈ ALLOWED_AI_TABLES) := by
  induction qs generalizing st with
  | nil => exact ⟨hg, hc⟩
  | cons a t ih =>
    have h := aggStep_preserves exec st a hg hc
    exact ih (aggStep exec st a) h.1 h.2

/-- C1: for every list of AI-proposed queries, every query recorded as executed
extracts a non-empty table set that is a subset of the whitelist
`{promos, trips, blogs, trip_schedules, trip_facilities, trip_itineraries,
reviews}`; every table contributing rows to `related_collections` is
whitelisted; and a (stripped) candidate from which zero tables are extractable
is rejected, contributing nothing to the state. -/
theorem ai_aggregate_whitelist (exec : String → Except Unit (List Row)) (qs : List String) :
    (∀ r ∈ (runAiQueries exec qs).generated_queries,
      _extract_tables_in_sql r ≠ [] ∧ ∀ t ∈ _extract_tables_in_sql r, t ∈ ALLOWED_AI_TABLES) ∧
    (∀ p ∈ (runAiQueries exec qs).related_collections, p.1 ∈ ALLOWED_AI_TABLES) ∧
    (∀ st q, _extract_tables_in_sql (stripStr q) = [] → aggStep exec st q = st) := by
  have hbase := foldl_aggStep_preserves exec qs {} (by simp [AggState.mk]) (by simp [AggState.mk])
  refine ⟨hbase.1, hbase.2, ?_⟩
  intro st q hq
  have hwl : _is_whitelisted_tables (stripStr q) ALLOWED_AI_TABLES = false := by
    simp [_is_whitelisted_tables, hq]
  by_cases h1 : (stripStr q).isEmpty = true
  · simp [aggStep, h1]
  rw [Bool.not_eq_true] at h1
  by_cases h2 : _is_select_only (stripStr q) = true
  · simp [aggStep, h1, h2, hwl]
  · rw [Bool.not_eq_true] at h2
    simp [aggStep, h1, h2]

/-- A concrete one-promo-row execution oracle for witnesses. -/
def execPromoRow : String → Except Unit (List Row) :=
  fun _ => .ok [[("name", Val.vstr "Hemat"), ("promo_code", Val.vstr "W200")]]

/-- Witness for C1 at concrete inputs. -/
theorem ai_aggregate_whitelist_witness :
    (_extract_tables_in_sql "select name from promos" ≠ [] ∧
      ∀ t ∈ _extract_tables_in_sql "select name from promos", t ∈ ALLOWED_AI_TABLES) ∧
    (("promos", [[("name", Val.vstr "Hemat"), ("promo_code", Val.vstr "W200")]]) :
        String × List Row).1 ∈ ALLOWED_AI_TABLES ∧
    aggStep execPromoRow {} "select 1" = {} :=
  ⟨(ai_aggregate_whitelist execPromoRow ["select name from promos"]).1
      "select name from promos" (by decide),
    (ai_aggregate_whitelist execPromoRow ["select name from promos"]).2.1 _ (by decide),
    (ai_aggregate_whitelist execPromoRow ["select name from promos"]).2.2 {} "select 1" (by decide)⟩

/-- A candidate whose execution raises leaves the whole accumulator state
unchanged (the `try`/`except`/`continue` of the loop). -/
theorem aggStep_exec_error (exec : String → Except Unit (List Row)) (st : AggState) (q : String)
    (h : exec (stripStr q) = Except.error ()) : aggStep exec st q = st := by
  by_cases h1 : (stripStr q).isEmpty = true
  · simp [aggStep, h1]
  rw [Bool.not_eq_true] at h1
  by_cases h2 : _is_select_only (stripStr q) = true
  · by_cases h3 : _is_whitelisted_tables (stripStr q) ALLOWED_AI_TABLES = true
    · simp [aggStep, h1, h2, h3, h]
    · rw [Bool.not_eq_true] at h3
      simp [aggStep, h1, h2, h3]
  · rw [Bool.not_eq_true] at h2
    simp [aggStep, h1, h2]

/-- C5: queries are independent units — a query failing execution is skipped
and the batch result equals that of the list without it; and within a promos
(resp. trips) result, rows failing the typed mapping are dropped individually
(`filterMap`) while every row still yields its narrative chunk. -/
theorem ai_aggregate_partial_failure (exec : String → Except Unit (List Row))
    (qs1 qs2 : List String) (qbad : String)
    (hbad : exec (stripStr qbad) = Except.error ()) :
    ((qs1 ++ qbad :: qs2).foldl (aggStep exec) {} = (qs1 ++ qs2).foldl (aggStep exec) {}) ∧
    (∀ (st : AggState) (q : String) (rows : List Row),
      exec (stripStr q) = Except.ok rows → (stripStr q).isEmpty = false →
      _is_select_only (stripStr q) = true →
      _is_whitelisted_tables (stripStr q) ALLOWED_AI_TABLES = true →
      rows.isEmpty = false →
      (_guess_main_table (stripStr q) = some "promos" →
        (aggStep exec st q).related_promos = st.related_promos ++ rows.filterMap parsePromo ∧
        (aggStep exec st q).chunks = st.chunks ++ rows.map promoChunk) ∧
      (_guess_main_table (stripStr q) = some "trips" →
        (aggStep exec st q).related_trips = st.related_trips ++ rows.filterMap parseTrip ∧
        (aggStep exec st q).chunks = st.chunks ++ rows.map tripChunk)) := by
  constructor
  · rw [List.foldl_append, List.foldl_cons, aggStep_exec_error exec _ qbad hbad,
      List.foldl_append]
  · intro st q rows hex h1 h2 h3 h4
    constructor
    · intro hgm
      simp [aggStep, h1, h2, h3, hex, h4, hgm]
    · intro hgm
      simp [aggStep, h1, h2, h3, hex, h4, hgm]

/-- A complete promo row (all `PromoSummary` fields present). -/
def promoRowFull : Row :=
  [("name", Val.vstr "Hemat"), ("promo_code", Val.vstr "W200"), ("discount_type", Val.vnull),
   ("discount_value", Val.vnull), ("start_date", Val.vstr "2025-01-01"),
   ("end_date", Val.vstr "2025-12-31"), ("is_active", Val.vint 1)]

/-- An oracle failing exactly on the blogs query and otherwise returning one
complete and one incomplete promo row. -/
def execC5 : String → Except Unit (List Row) :=
  fun q =>
    if q == "select title from blogs" then .error ()
    else .ok [promoRowFull, [("promo_code", Val.vstr "X")]]

/-- Witness for C5 at concrete inputs: the failing middle query is skipped and
the incomplete promo row is dropped individually. -/
theorem ai_aggregate_partial_failure_witness :
    execC5 (stripStr "select title from blogs") = Except.error () ∧
    ((["select name from promos"] ++ "select title from blogs" :: ["select id from trips"]).foldl
        (aggStep execC5) {} =
      (["select name from promos"] ++ ["select id from trips"]).foldl (aggStep execC5) {}) ∧
    (aggStep execC5 {} "select name from promos").related_promos =
      ({} : AggState).related_promos ++
        [promoRowFull, [("promo_code", Val.vstr "X")]].filterMap parsePromo :=
  ⟨rfl,
    (ai_aggregate_partial_failure execC5 ["select name from promos"] ["select id from trips"]
        "select title from blogs" rfl).1,
    (((ai_aggregate_partial_failure execC5 ["select name from promos"] ["select id from trips"]
          "select title from blogs" rfl).2 {} "select name from promos"
        [promoRowFull, [("promo_code", Val.vstr "X")]] rfl (by decide) (by decide)
        (by decide) (by decide)).1 (by decide)).1⟩

/-- C9 counterexample: two distinct validated promos queries that each return
rows append the audit key `promos.ai` twice — not at most once per table. -/
theorem ai_audit_key_duplicated :
    (runAiQueries execPromoRow
        ["select name from promos", "select promo_code from promos"]).used_keys =
      ["promos.ai", "promos.ai"] ∧
    ¬ ((runAiQueries execPromoRow
          ["select name from promos", "select promo_code from promos"]).used_keys.count
        "promos.ai" ≤ 1) := by
  constructor
  · decide
  · decide

/-- C9 amended: the audit key `"<table>.ai"` is appended once per *executed
query* that returned rows (keyed by the query's guessed main table, nothing
when no `from`-table is guessable), so a table served by several row-yielding
queries is tagged once per such query. -/
theorem ai_audit_key_per_query (exec : String → Except Unit (List Row)) (st : AggState)
    (q : String) (rows : List Row)
    (h1 : (stripStr q).isEmpty = false) (h2 : _is_select_only (stripStr q) = true)
    (h3 : _is_whitelisted_tables (stripStr q) ALLOWED_AI_TABLES = true)
    (hex : exec (stripStr q) = Except.ok rows) (h4 : rows.isEmpty = false) :
    (aggStep exec st q).used_keys = st.used_keys ++
      (match _guess_main_table (stripStr q) with
       | some t => [t ++ ".ai"]
       | none => []) := by
  rcases hgm : _guess_main_table (stripStr q) with _ | t
  · simp [aggStep, h1, h2, h3, hex, h4, hgm]
  · by_cases h5 : t = "promos"
    · subst h5
      simp [aggStep, h1, h2, h3, hex, h4, hgm]
    by_cases h6 : t = "trips"
    · subst h6
      simp [aggStep, h1, h2, h3, hex, h4, hgm]
    · simp [aggStep, h1, h2, h3, hex, h4, hgm, h5, h6]

/-- Witness for the amended C9 at a concrete input. -/
theorem ai_audit_key_per_query_witness :
    (aggStep execPromoRow {} "select name from promos").used_keys =
      ({} : AggState).used_keys ++
        (match _guess_main_table (stripStr "select name from promos") with
         | some t => [t ++ ".ai"]
         | none => []) :=
  ai_audit_key_per_query execPromoRow {} "select name from promos"
    [[("name", Val.vstr "Hemat"), ("promo_code", Val.vstr "W200")]]
    (by decide) (by decide) (by decide) rfl (by decide)

/-- Follows the claim's words, not the source (for comparison with
`_is_select_only`): `kw` occurs in the text as a whole token, bounded by word
boundaries on both sides. -/
def hasWholeTokenAux (kw : List Char) : Nat → Bool → List Char → Bool
  | 0, _, _ => false
  | _ + 1, _, [] => false
  | fuel + 1, prevW, c :: rest =>
    if !prevW then
      match dropExact kw (c :: rest) with
      | some r =>
        if atBoundary r then true else hasWholeTokenAux kw fuel (isWordChar c) rest
      | none => hasWholeTokenAux kw fuel (isWordChar c) rest
    else hasWholeTokenAux kw fuel (isWordChar c) rest

/-- Whole-token occurrence of `kw` in `s` (the claim's reading of "appears as a
whole token"). -/
def hasWholeToken (s kw : String) : Bool :=
  hasWholeTokenAux kw.data s.data.length false s.data

/-- C2 counterexample: `"select drop"` contains the write keyword `drop` as a
whole token, yet the validator accepts it — the source checks only the
substring `"drop "` with a trailing space, which a keyword in final position
escapes. -/
theorem select_only_whole_token_counterexample :
    hasWholeToken (lowerStr (stripStr "select drop")) "drop" = true ∧
    _is_select_only "select drop" = true :=
  ⟨by decide, by decide⟩

/-- C2 amended: the validator rejects any candidate containing `;`, a comment
marker, or a blocked keyword *followed by a space* (the source's
`"<keyword> "` substring test — catching whole-token occurrences that are
space-followed but not a keyword in final position), and accepted candidates
start with `select` or `with `. -/
theorem select_only_reject_rules (q : String) :
    (strContains (lowerStr (stripStr q)) ";" = true → _is_select_only q = false) ∧
    (strContains (lowerStr (stripStr q)) "--" = true → _is_select_only q = false) ∧
    (strContains (lowerStr (stripStr q)) "/*" = true → _is_select_only q = false) ∧
    (strContains (lowerStr (stripStr q)) "*/" = true → _is_select_only q = false) ∧
    (∀ b ∈ BLOCKED_KEYWORDS, strContains (lowerStr (stripStr q)) b = true →
      _is_select_only q = false) ∧
    (_is_select_only q = true →
      strStarts (lowerStr (stripStr q)) "select" = true ∨
        strStarts (lowerStr (stripStr q)) "with " = true) := by
  refine ⟨?_, ?_, ?_, ?_, ?_, ?_⟩
  · intro h; simp [_is_select_only, h]
  · intro h; simp [_is_select_only, h]
  · intro h; simp [_is_select_only, h]
  · intro h; simp [_is_select_only, h]
  · intro b hb h
    have hany : BLOCKED_KEYWORDS.any
        (fun b => strContains (lowerStr (stripStr q)) b) = true :=
      List.any_eq_true.mpr ⟨b, hb, h⟩
    simp [_is_select_only, hany]
  · intro h
    simp only [_is_select_only] at h
    split_ifs at h
    simpa using h

/-- Witness for the amended C2 at concrete inputs. -/
theorem select_only_reject_rules_witness :
    (strContains (lowerStr (stripStr "select 1; drop table x")) ";" = true ∧
      _is_select_only "select 1; drop table x" = false) ∧
    ("drop " ∈ BLOCKED_KEYWORDS ∧
      strContains (lowerStr (stripStr "select 1 drop table")) "drop " = true ∧
      _is_select_only "select 1 drop table" = false) ∧
    (_is_select_only "select 1" = true ∧
      (strStarts (lowerStr (stripStr "select 1")) "select" = true ∨
        strStarts (lowerStr (stripStr "select 1")) "with " = true)) :=
  ⟨⟨by decide, (select_only_reject_rules "select 1; drop table x").1 (by decide)⟩,
    ⟨by decide, by decide,
      (select_only_reject_rules "select 1 drop table").2.2.2.2.1 "drop " (by decide) (by decide)⟩,
    ⟨by decide, (select_only_reject_rules "select 1").2.2.2.2.2 (by decide)⟩⟩

/-- A generator oracle whose guarded proposal block and whose answer/thematic
calls all fail, with the API key present. -/
def envGenFail : GenEnv := ⟨true, none, true, none, true, none⟩

/-- C6 counterexample: when the generation step fails, `generate_sql_queries`
degrades to the non-empty promo fallback (not to an empty list) for a message
mentioning promos, and `answer_with_context` propagates the failure as an
error instead of degrading to the fixed out-of-context string. -/
theorem generator_failure_counterexample :
    generate_sql_queries envGenFail "ada promo" ALLOWED_AI_TABLES =
      Except.ok [promoFallbackSql "ada promo"] ∧
    promoFallbackSql "ada promo" ≠ "" ∧
    answer_with_context envGenFail "ada promo" ["chunk"] = Except.error PyErr.err :=
  ⟨rfl, by decide, rfl⟩

/-- C6 amended: on a guarded generation/parsing failure, `generate_sql_queries`
degrades without error to the keyword fallback list — empty only when the
message names no trigger keyword; `answer_with_context` degrades to the fixed
string only when the call succeeds without text; a missing API key makes both
operations propagate an error, and a failing answer call propagates too. -/
theorem generator_degradation (env : GenEnv) (msg : String) (ctx : List String)
    (tables : List String) :
    (env.apiKeyPresent = true → env.proposed = none →
      generate_sql_queries env msg tables = Except.ok (fallback_queries (lowerStr msg))) ∧
    (strContains (lowerStr msg) "promo" = false →
      TRIP_FALLBACK_KEYWORDS.any (fun k => strContains (lowerStr msg) k) = false →
      fallback_queries (lowerStr msg) = []) ∧
    (env.apiKeyPresent = true → env.answerRaises = false → env.answerText = none →
      answer_with_context env msg ctx = Except.ok OUT_OF_CONTEXT_REPLY) ∧
    (env.apiKeyPresent = false →
      generate_sql_queries env msg tables = Except.error PyErr.err ∧
      answer_with_context env msg ctx = Except.error PyErr.err) ∧
    (env.apiKeyPresent = true → env.answerRaises = true →
      answer_with_context env msg ctx = Except.error PyErr.err) := by
  refine ⟨?_, ?_, ?_, ?_, ?_⟩
  · intro h1 h2
    simp [generate_sql_queries, _ensure_init, h1, h2]
  · intro h1 h2
    simp [fallback_queries, h1, h2]
  · intro h1 h2 h3
    simp [answer_with_context, _ensure_init, h1, h2, h3]
  · intro h1
    exact ⟨by simp [generate_sql_queries, _ensure_init, h1],
      by simp [answer_with_context, _ensure_init, h1]⟩
  · intro h1 h2
    simp [answer_with_context, _ensure_init, h1, h2]

/-- Witness for the amended C6 at concrete inputs. -/
theorem generator_degradation_witness :
    (envGenFail.apiKeyPresent = true ∧ envGenFail.proposed = none ∧
      generate_sql_queries envGenFail "ada promo" ALLOWED_AI_TABLES =
        Except.ok (fallback_queries (lowerStr "ada promo"))) ∧
    (strContains (lowerStr "berapa harga") "promo" = false ∧
      fallback_queries (lowerStr "berapa harga") = []) ∧
    answer_with_context envGenFail "ada promo" [] = Except.error PyErr.err ∧
    (generate_sql_queries (GenEnv.mk false none false none false none) "x" [] =
        Except.error PyErr.err ∧
      answer_with_context (GenEnv.mk false none false none false none) "x" [] =
        Except.error PyErr.err) :=
  ⟨⟨rfl, rfl, (generator_degradation envGenFail "ada promo" [] ALLOWED_AI_TABLES).1 rfl rfl⟩,
    ⟨by decide, (generator_degradation envGenFail "berapa harga" [] []).2.1 (by decide) (by decide)⟩,
    (generator_degradation envGenFail "ada promo" [] []).2.2.2.2 rfl rfl,
    (generator_degradation (GenEnv.mk false none false none false none) "x" [] []).2.2.2.1 rfl⟩

/-- A concrete empty store for witnesses and counterexamples. -/
def dbEmpty : Db := ⟨[], [], [], [], [], [], [], [], fun _ => .ok []⟩

/-- A concrete well-behaved generator oracle for witnesses. -/
def envBenign : GenEnv := ⟨true, some [], false, some "jawaban", false, some "tematik"⟩

/-- C7: any message containing a sensitivity keyword (case-insensitive
substring), whatever else it contains, is answered with the fixed denial text,
an empty `used_context_keys`, empty collections, and no generator call — the
sensitive set is consulted first by `classify_intent` and the sensitive gate
runs first in the controller. -/
theorem sensitive_denial (db : Db) (env : GenEnv) (payload : ChatRequest)
    (h : SENSITIVE_KEYWORDS.any (fun k => strContains (lowerStr payload.message) k) = true) :
    chat db env payload =
      Except.ok ({ reply := SENSITIVE_DENIAL, used_context_keys := [] }, []) := by
  have hc : classify_intent payload.message = "sensitive" := by
    simp [classify_intent, h]
  simp [chat, gateOutcome, hc]

/-- Witness for C7 at a concrete message also containing private and public
keywords. -/
theorem sensitive_denial_witness :
    SENSITIVE_KEYWORDS.any
        (fun k => strContains (lowerStr "cek booking trip, berapa password wifi") k) = true ∧
    chat dbEmpty envBenign ⟨"cek booking trip, berapa password wifi", none⟩ =
      Except.ok ({ reply := SENSITIVE_DENIAL, used_context_keys := [] }, []) :=
  ⟨by decide,
    sensitive_denial dbEmpty envBenign ⟨"cek booking trip, berapa password wifi", none⟩
      (by decide)⟩

/-- C3 (code-bug evidence): the message `"ada jadwal trip bali?"` clears every
gate, and the controller then performs the aggregator call of
`chat_controller.py` line 260 with a `booking_code` keyword argument that the
service signature of `chat_service.py` line 449 does not accept — Python
raises `TypeError` at the call site, before any generator interaction, and the
fault escapes to the transport layer instead of a well-formed payload.  The
generator oracle here is fully healthy, showing the fault is independent of
the external collaborators. -/
theorem chat_aggregation_type_error :
    gateOutcome dbEmpty ⟨"ada jadwal trip bali?", none⟩ = none ∧
    chat dbEmpty envBenign ⟨"ada jadwal trip bali?", none⟩ = Except.error PyErr.typeError ∧
    envBenign.apiKeyPresent = true ∧ envBenign.answerRaises = false ∧
    envBenign.thematicRaises = false :=
  ⟨rfl, rfl, rfl, rfl, rfl⟩

/-- C4 counterexample: `"password booking"` matches the private-topic keywords
and no booking code is extractable, yet the reply is the sensitive denial
(the sensitive gate runs first), not a booking-code prompt. -/
theorem private_no_code_counterexample :
    is_private_topic "password booking" = true ∧
    _extract_booking_code "password booking" none = none ∧
    chat dbEmpty envBenign ⟨"password booking", none⟩ =
      Except.ok ({ reply := SENSITIVE_DENIAL, used_context_keys := [] }, []) ∧
    SENSITIVE_DENIAL ≠ PRIVATE_PROMPT_GENERIC ∧
    SENSITIVE_DENIAL ≠ PRIVATE_PROMPT_PAYMENT ∧
    SENSITIVE_DENIAL ≠ PRIVATE_PROMPT_DETAIL :=
  ⟨by decide, by decide, rfl, by decide, by decide, by decide⟩

/-- C4 amended: for every message that *reaches the private gate* (no earlier
gate matches) and is classified private or matches private-topic keywords,
with no extractable booking code, the reply is the sub-intent-phrased
booking-code prompt with empty audit keys, empty collections, and no generator
call. -/
theorem private_no_code_prompt (db : Db) (env : GenEnv) (payload : ChatRequest)
    (hs : classify_intent payload.message ≠ "sensitive")
    (hi : is_internal_data_request payload.message = false)
    (hgr : is_pure_greeting payload.message = false)
    (hpii : is_pii_lookup payload.message = false)
    (hp : needs_promo_identifier payload.message = false)
    (ht : needs_trip_identifier payload.message = false)
    (hb : needs_blog_identifier payload.message = false)
    (hca : needs_category_identifier payload.message = false)
    (hta : needs_tag_identifier payload.message = false)
    (hsc : needs_schedule_identifier payload.message = false)
    (hre : needs_review_identifier payload.message = false)
    (hpriv : classify_intent payload.message = "private" ∨
      is_private_topic payload.message = true)
    (hcode : _extract_booking_code payload.message (requestBookingCodeHint payload) = none) :
    chat db env payload =
      Except.ok ({ reply := private_prompt payload.message, used_context_keys := [] }, []) := by
  have hs' : (classify_intent payload.message == "sensitive") = false := by
    simp only [beq_eq_false_iff_ne, ne_eq]
    exact hs
  have hclass : ((classify_intent payload.message == "private") ||
      is_private_topic payload.message) = true := by
    rcases hpriv with h | h
    · simp [h]
    · simp [h]
  simp [chat, gateOutcome, hs', hi, hgr, hpii, hp, ht, hb, hca, hta, hsc, hre, hclass, hcode]

/-- Witness for the amended C4 at a concrete input. -/
theorem private_no_code_prompt_witness :
    (classify_intent "status pesanan saya" = "private" ∧
      _extract_booking_code "status pesanan saya" none = none) ∧
    chat dbEmpty envBenign ⟨"status pesanan saya", none⟩ =
      Except.ok ({ reply := private_prompt "status pesanan saya", used_context_keys := [] }, []) :=
  ⟨⟨by decide, by decide⟩,
    private_no_code_prompt dbEmpty envBenign ⟨"status pesanan saya", none⟩
      (by decide) (by decide) (by decide) (by decide) (by decide) (by decide) (by decide)
      (by decide) (by decide) (by decide) (by decide) (Or.inl (by decide)) (by decide)⟩

/-- C8 counterexample: a private-topic message with a syntactically extractable
non-existent booking code whose reply is nevertheless the sensitive denial —
the sensitive gate preempts the private not-found branch. -/
theorem booking_not_found_counterexample :
    is_private_topic "password status booking TG-ABC123" = true ∧
    _extract_booking_code "password status booking TG-ABC123" none = some "TG-ABC123" ∧
    dbEmpty.bookings.any (fun b => b.booking_code == "TG-ABC123") = false ∧
    chat dbEmpty envBenign ⟨"password status booking TG-ABC123", none⟩ =
      Except.ok ({ reply := SENSITIVE_DENIAL, used_context_keys := [] }, []) ∧
    SENSITIVE_DENIAL ≠ bookingNotFoundReply "TG-ABC123" :=
  ⟨by decide, by decide, by decide, rfl, by decide⟩

/-- The not-found reply never coincides with any of the three no-identifier
prompts (they start with different words). -/
theorem bookingNotFound_ne_prompts (code : String) :
    bookingNotFoundReply code ≠ PRIVATE_PROMPT_GENERIC ∧
    bookingNotFoundReply code ≠ PRIVATE_PROMPT_PAYMENT ∧
    bookingNotFoundReply code ≠ PRIVATE_PROMPT_DETAIL := by
  refine ⟨?_, ?_, ?_⟩ <;>
    · intro h
      have hd := congrArg String.data h
      simp only [bookingNotFoundReply, PRIVATE_PROMPT_GENERIC, PRIVATE_PROMPT_PAYMENT,
        PRIVATE_PROMPT_DETAIL, String.data_append] at hd
      simp at hd

/-- C8 amended: for every private-topic message that reaches the private gate,
with a syntactically extracted booking code absent from the store, the reply
is exactly the not-found message naming the code, the audit key is
`bookings.by_code`, no generator call is attempted, and the wording differs
from every no-identifier prompt. -/
theorem booking_not_found_reply (db : Db) (env : GenEnv) (payload : ChatRequest) (code : String)
    (hs : classify_intent payload.message ≠ "sensitive")
    (hi : is_internal_data_request payload.message = false)
    (hgr : is_pure_greeting payload.message = false)
    (hpii : is_pii_lookup payload.message = false)
    (hp : needs_promo_identifier payload.message = false)
    (ht : needs_trip_identifier payload.message = false)
    (hb : needs_blog_identifier payload.message = false)
    (hca : needs_category_identifier payload.message = false)
    (hta : needs_tag_identifier payload.message = false)
    (hsc : needs_schedule_identifier payload.message = false)
    (hre : needs_review_identifier payload.message = false)
    (hpriv : classify_intent payload.message = "private" ∨
      is_private_topic payload.message = true)
    (hcode : _extract_booking_code payload.message (requestBookingCodeHint payload) = some code)
    (hnf : db.bookings.any (fun b => b.booking_code == code) = false) :
    chat db env payload =
      Except.ok ({ reply := bookingNotFoundReply code,
                   used_context_keys := ["bookings.by_code"] }, []) ∧
    bookingNotFoundReply code ≠ PRIVATE_PROMPT_GENERIC ∧
    bookingNotFoundReply code ≠ PRIVATE_PROMPT_PAYMENT ∧
    bookingNotFoundReply code ≠ PRIVATE_PROMPT_DETAIL := by
  refine ⟨?_, bookingNotFound_ne_prompts code⟩
  have hs' : (classify_intent payload.message == "sensitive") = false := by
    simp only [beq_eq_false_iff_ne, ne_eq]
    exact hs
  have hclass : ((classify_intent payload.message == "private") ||
      is_private_topic payload.message) = true := by
    rcases hpriv with h | h
    · simp [h]
    · simp [h]
  simp [chat, gateOutcome, hs', hi, hgr, hpii, hp, ht, hb, hca, hta, hsc, hre, hclass, hcode, hnf]

/-- A store holding one booking of another customer, for the C8 witness. -/
def dbOneBooking : Db :=
  ⟨[⟨"TG-XYZ999", "lain@contoh.id", 5, some "Bali", "2025-06-01", 2, 100, "confirmed", "paid"⟩],
    [], [], [], [], [], [], [], fun _ => .ok []⟩

/-- Witness for the amended C8: the spec's own scenario
`"status booking TG-ABC123"` with an absent code. -/
theorem booking_not_found_reply_witness :
    (_extract_booking_code "status booking TG-ABC123" none = some "TG-ABC123" ∧
      dbOneBooking.bookings.any (fun b => b.booking_code == "TG-ABC123") = false) ∧
    chat dbOneBooking envBenign ⟨"status booking TG-ABC123", none⟩ =
      Except.ok ({ reply := bookingNotFoundReply "TG-ABC123",
                   used_context_keys := ["bookings.by_code"] }, []) ∧
    bookingNotFoundReply "TG-ABC123" ≠ PRIVATE_PROMPT_GENERIC :=
  ⟨⟨by decide, by decide⟩,
    (booking_not_found_reply dbOneBooking envBenign ⟨"status booking TG-ABC123", none⟩ "TG-ABC123"
        (by decide) (by decide) (by decide) (by decide) (by decide) (by decide) (by decide)
        (by decide) (by decide) (by decide) (by decide) (Or.inl (by decide)) (by decide)
        (by decide)).1,
    ((booking_not_found_reply dbOneBooking envBenign ⟨"status booking TG-ABC123", none⟩ "TG-ABC123"
        (by decide) (by decide) (by decide) (by decide) (by decide) (by decide) (by decide)
        (by decide) (by decide) (by decide) (by decide) (Or.inl (by decide)) (by decide)
        (by decide)).2).1⟩

/-- The head of a list, when present, is a member. -/
theorem mem_of_head?_eq_some {α : Type} (l : List α) (a : α) (h : l.head? = some a) : a ∈ l := by
  cases l with
  | nil => simp at h
  | cons x t =>
    simp at h
    simp [h]

/-- C10: with an authenticated user supplied, `detect_booking_by_code` only
returns a booking whose `customer_email` is the user's;
`build_booking_by_code_context` only describes such a booking (a code held by
another customer yields no chunk); and `get_user_recent_bookings` returns only
the user's bookings, ordered by `created_at` descending and bounded by the
limit. -/
theorem booking_lookup_user_scoped (db : Db) (u : UserM) (message : String) (limit : Nat) :
    (∀ b, detect_booking_by_code db (some u) message = some b →
      b.customer_email = u.email) ∧
    ((build_booking_by_code_context db (some u) message).1 ≠ [] →
      ∃ b ∈ db.bookings, b.customer_email = u.email ∧
        (build_booking_by_code_context db (some u) message).1 = [bookingDetailLine b]) ∧
    (∀ b ∈ get_user_recent_bookings db u limit, b.customer_email = u.email) ∧
    List.Sorted bookingDesc (get_user_recent_bookings db u limit) ∧
    (get_user_recent_bookings db u limit).length ≤ limit := by
  refine ⟨?_, ?_, ?_, ?_, ?_⟩
  · intro b hb
    unfold detect_booking_by_code at hb
    rcases hsc : searchFirst matchBookingCode (upperStr message) with _ | code
    · simp [hsc] at hb
    · simp only [hsc] at hb
      have hmem := mem_of_head?_eq_some _ _ hb
      have := (List.mem_filter.mp hmem).2
      simpa using this
  · intro hne
    unfold build_booking_by_code_context at hne ⊢
    rcases hsc : searchFirst matchCodeDigits (upperStr message) with _ | code
    · simp [hsc] at hne
    · simp only [hsc] at hne ⊢
      rcases hh : (((db.bookings.filter (fun b => b.booking_code == code)).filter
          (fun (b : Booking) => b.customer_email == u.email))).head? with _ | b
      · rw [hh] at hne
        simp at hne
      · simp only [hh]
        have hmem := mem_of_head?_eq_some _ _ hh
        have hemail := (List.mem_filter.mp hmem).2
        have hbm := (List.mem_filter.mp (List.mem_filter.mp hmem).1).1
        exact ⟨b, hbm, by simpa using hemail, rfl⟩
  · intro b hb
    unfold get_user_recent_bookings at hb
    have h1 := List.mem_of_mem_take hb
    have h2 := (List.perm_insertionSort bookingDesc _).mem_iff.mp h1
    have := (List.mem_filter.mp h2).2
    simpa using this
  · exact (List.sorted_insertionSort bookingDesc _).sublist (List.take_sublist _ _)
  · exact List.length_take_le _ _
/-- A two-customer store sharing one booking code, for the C10 witness. -/
def dbTwoCustomers : Db :=
  ⟨[⟨"BK12345", "lain@contoh.id", 9, some "Bali", "2025-06-01", 2, 100, "confirmed", "paid"⟩,
    ⟨"BK12345", "saya@contoh.id", 3, some "Bali", "2025-06-01", 1, 50, "pending", "unpaid"⟩],
    [], [], [], [], [], [], [], fun _ => .ok []⟩

/-- The authenticated user of the C10 witness. -/
def userSaya : UserM := ⟨"Saya", "saya@contoh.id"⟩

/-- Witness for C10: with another customer's booking listed first under the
same code, the scoped lookups return/describe only the user's own booking. -/
theorem booking_lookup_user_scoped_witness :
    (detect_booking_by_code dbTwoCustomers (some userSaya) "cek BK12345" =
        some ⟨"BK12345", "saya@contoh.id", 3, some "Bali", "2025-06-01", 1, 50, "pending", "unpaid"⟩ ∧
      (⟨"BK12345", "saya@contoh.id", 3, some "Bali", "2025-06-01", 1, 50, "pending",
          "unpaid"⟩ : Booking).customer_email = userSaya.email) ∧
    ((build_booking_by_code_context dbTwoCustomers (some userSaya) "cek BK12345").1 ≠ [] ∧
      ∃ b ∈ dbTwoCustomers.bookings, b.customer_email = userSaya.email ∧
        (build_booking_by_code_context dbTwoCustomers (some userSaya) "cek BK12345").1 =
          [bookingDetailLine b]) ∧
    (⟨"BK12345", "saya@contoh.id", 3, some "Bali", "2025-06-01", 1, 50, "pending",
        "unpaid"⟩ : Booking) ∈ get_user_recent_bookings dbTwoCustomers userSaya 10 ∧
    List.Sorted bookingDesc (get_user_recent_bookings dbTwoCustomers userSaya 10) ∧
    (get_user_recent_bookings dbTwoCustomers userSaya 10).length ≤ 10 :=
  ⟨⟨by decide,
      (booking_lookup_user_scoped dbTwoCustomers userSaya "cek BK12345" 10).1 _ (by decide)⟩,
    ⟨by decide,
      (booking_lookup_user_scoped dbTwoCustomers userSaya "cek BK12345" 10).2.1 (by decide)⟩,
    by decide,
    (booking_lookup_user_scoped dbTwoCustomers userSaya "cek BK12345" 10).2.2.2.1,
    (booking_lookup_user_scoped dbTwoCustomers userSaya "cek BK12345" 10).2.2.2.2⟩

end ChatTravel
